import Mathlib

/-!
Verification of the Roblox Architecture Explanation API backend
(`backend/server.py`) against its natural-language specification.

The source is a FastAPI service over a MongoDB store.  We embed it
shallowly:

* The two Mongo collections become Lean lists (`List ArchitectureComponent`,
  `List StepExplanation`); `find_one {"id": v}` becomes `List.find?`,
  `find(query).sort(key, 1).to_list(100)` becomes
  `filter` / `insertionSort` / `take 100`.
* JSON numbers are embedded as exact rationals `ℚ`.  Python performs the
  calculator arithmetic on IEEE-754 doubles; that rounding is abstracted to
  exact rational arithmetic, which agrees with the source at all inputs the
  claims evaluate.  Python `int()` (truncation toward zero) is `pyInt`,
  `math.ceil` is `⌈·⌉`, `max` is `max`.
* A Python `ZeroDivisionError` (raised by `players / players_per_server`
  when the divisor is zero) and an `HTTPException` are both embedded in the
  `ApiError` error type of an `Except` result.
* `uuid.uuid4()` id generation is embedded as an abstract id-assignment
  function `gen`; uniqueness of generated ids is an explicit hypothesis.
  The `created_at` wall-clock timestamp field is not modelled (real time).
-/

/-- Component categories, from the `ComponentType` string enum of the source. -/
inductive ComponentType where
  | load_balancer
  | cdn
  | api_gateway
  | game_server
  | database
  | cache
  | message_queue
  | monitoring
  | security
  | storage
deriving DecidableEq, Repr

/-- Difficulty levels, from the `DifficultyLevel` string enum of the source. -/
inductive DifficultyLevel where
  | beginner
  | intermediate
  | advanced
deriving DecidableEq, Repr

/-- One architecture component document, mirroring the `ArchitectureComponent`
pydantic model.  `capacity_metrics` (a `Dict[str, Any]` whose seed values are
all numeric) is a key-value list over `ℚ`; `position` (`Dict[str, int]`) is a
key-value list over `Int`.  The `created_at` timestamp is not modelled. -/
structure ArchitectureComponent where
  id : String
  name : String
  type : ComponentType
  description : String
  detailed_explanation : String
  technologies : List String
  protocols : List String
  capacity_metrics : List (String × ℚ)
  position : List (String × Int)
  connections : List String
  difficulty_level : DifficultyLevel
  step_order : Int
deriving DecidableEq, Repr

/-- A value of a step's `technical_details` mapping (`Dict[str, Any]`: the
seed data holds strings, numbers and lists of strings). -/
inductive TechDetail where
  | str (s : String)
  | num (q : ℚ)
  | strList (l : List String)
deriving DecidableEq, Repr

/-- One step document, mirroring the `StepExplanation` pydantic model. -/
structure StepExplanation where
  id : String
  step_number : Int
  title : String
  description : String
  components_involved : List String
  diagram_focus : List String
  technical_details : List (String × TechDetail)
  beginner_explanation : String
  advanced_explanation : String
deriving DecidableEq, Repr

/-- Request body of `POST /calculate-capacity`, mirroring
`CapacityCalculationInput`.  `inputs` is a `Dict[str, Any]` restricted, as in
every use the spec considers, to numeric values. -/
structure CapacityCalculationInput where
  component_id : String
  calculation_type : String
  inputs : List (String × ℚ)
deriving DecidableEq, Repr

/-- The `result` dictionary computed by the `game_server` branch. -/
structure GameServerResult where
  servers_needed : Int
  cpu_cores_total : Int
  memory_gb_total : Int
  network_gbps : ℚ
deriving DecidableEq, Repr

/-- The `result` dictionary computed by the `database` branch. -/
structure DatabaseResult where
  read_replicas_needed : Int
  write_masters_needed : Int
  storage_tb_needed : Int
  shards_needed : Int
deriving DecidableEq, Repr

/-- The `result` dictionary computed by the `load_balancer` branch. -/
structure LoadBalancerResult where
  load_balancers_needed : Int
  bandwidth_gbps : Int
  ssl_termination_capacity : Int
  health_checks_per_second : Int
deriving DecidableEq, Repr

/-- The `result` field of a capacity-calculation response: one of the three
implemented shapes, or the fixed placeholder `{"message": ...}` mapping. -/
inductive CalcResult where
  | gameServer (r : GameServerResult)
  | database (r : DatabaseResult)
  | loadBalancer (r : LoadBalancerResult)
  | notImplemented (message : String)
deriving DecidableEq, Repr

/-- Successful response body of `POST /calculate-capacity`, mirroring the
dict literal returned by the handler (same shape as the `CapacityCalculation`
pydantic model). -/
structure CapacityCalculation where
  component_id : String
  calculation_type : String
  inputs : List (String × ℚ)
  result : CalcResult
  explanation : String
deriving DecidableEq, Repr

/-- Failure modes of a request handler: `httpNotFound detail` embeds
`HTTPException(status_code=404, detail=detail)`; `zeroDivisionError` embeds
an uncaught Python `ZeroDivisionError`. -/
inductive ApiError where
  | httpNotFound (detail : String)
  | zeroDivisionError
deriving DecidableEq, Repr

/-- Python `dict.get(key, default)` on a numeric-valued `inputs` mapping. -/
def getInput (inputs : List (String × ℚ)) (key : String) (default : ℚ) : ℚ :=
  match inputs.find? (fun p => p.1 == key) with
  | some p => p.2
  | none => default

/-- Python `int()` applied to an exact rational value: truncation toward
zero (floor for nonnegative arguments, ceiling for negative ones). -/
def pyInt (q : ℚ) : Int :=
  if 0 ≤ q then ⌊q⌋ else ⌈q⌉

/-- Inserts a comma after every third character of a reversed digit list;
helper for Python's thousands-separator format `f"{n:,}"`. -/
def commaGroup : List Char → List Char
  | a :: b :: c :: d :: l => a :: b :: c :: ',' :: commaGroup (d :: l)
  | l => l

/-- Python `f"{n:,}"` for a natural number. -/
def commaNat (n : Nat) : String :=
  String.mk (commaGroup (toString n).toList.reverse).reverse

/-- Python `f"{i:,}"` for an integer. -/
def commaInt (i : Int) : String :=
  if i < 0 then "-" ++ commaNat i.natAbs else commaNat i.natAbs

/-- Python `f"{q}"` (plain `str`) for a numeric input value.  Integral values
render as Python ints do; the decimal rendering of non-integral floats is
abstracted as numerator/denominator (no claim evaluates it). -/
def plainQ (q : ℚ) : String :=
  if q.den = 1 then toString q.num else toString q.num ++ "/" ++ toString q.den

/-- Python `f"{q:,}"` for a numeric input value, same abstraction as
`plainQ` for non-integral values. -/
def commaQ (q : ℚ) : String :=
  if q.den = 1 then commaInt q.num else plainQ q

/-- Mongo `db.components.find_one({"id": component_id})`. -/
def resolveComponent (store : List ArchitectureComponent) (component_id : String) :
    Option ArchitectureComponent :=
  store.find? (fun c => c.id == component_id)

/-- The `GET /components` handler `get_components`: optional equality filter
on `difficulty_level`, Mongo `.sort("step_order", 1)` (a stable sort), and
the `.to_list(100)` result cap. -/
def get_components (store : List ArchitectureComponent)
    (difficulty : Option DifficultyLevel) : List ArchitectureComponent :=
  let query := fun c => match difficulty with
    | some d => decide (c.difficulty_level = d)
    | none => true
  (((store.filter query).insertionSort
    (fun a b => a.step_order ≤ b.step_order)).take 100)

/-- The `GET /components/{component_id}` handler `get_component`. -/
def get_component (store : List ArchitectureComponent) (component_id : String) :
    Except ApiError ArchitectureComponent :=
  match resolveComponent store component_id with
  | some c => .ok c
  | none => .error (.httpNotFound "Component not found")

/-- The `GET /steps` handler `get_steps`: Mongo `.sort("step_number", 1)`
and the `.to_list(100)` result cap. -/
def get_steps (store : List StepExplanation) : List StepExplanation :=
  ((store.insertionSort (fun a b => a.step_number ≤ b.step_number)).take 100)

/-- The `GET /steps/{step_number}` handler `get_step`. -/
def get_step (store : List StepExplanation) (step_number : Int) :
    Except ApiError StepExplanation :=
  match store.find? (fun s => s.step_number == step_number) with
  | some s => .ok s
  | none => .error (.httpNotFound "Step not found")

/-- The `POST /calculate-capacity` handler `calculate_capacity`.  Resolves
the component, then branches on its category exactly as the source's
`if`/`elif` chain does; the `game_server` branch divides by the
`players_per_server` input, so a zero value there raises
`ZeroDivisionError` (embedded as an explicit error).  All other divisions
are by nonzero literals. -/
def calculate_capacity (store : List ArchitectureComponent)
    (calculation : CapacityCalculationInput) : Except ApiError CapacityCalculation :=
  match resolveComponent store calculation.component_id with
  | none => .error (.httpNotFound "Component not found")
  | some component =>
    if component.type = .game_server then
      let players := getInput calculation.inputs "concurrent_players" 26000000
      let players_per_server := getInput calculation.inputs "players_per_server" 100
      if players_per_server = 0 then
        .error .zeroDivisionError
      else
        let servers_needed : Int := ⌈players / players_per_server⌉
        .ok { component_id := calculation.component_id
              calculation_type := calculation.calculation_type
              inputs := calculation.inputs
              result := .gameServer
                { servers_needed := servers_needed
                  cpu_cores_total := servers_needed * 4
                  memory_gb_total := servers_needed * 8
                  network_gbps := (servers_needed : ℚ) * 0.1 }
              explanation := "For " ++ commaQ players ++
                " concurrent players with " ++ plainQ players_per_server ++
                " players per server, you need " ++ commaInt servers_needed ++
                " game servers." }
    else if component.type = .database then
      let reads_per_second := getInput calculation.inputs "reads_per_second" 2000000
      let writes_per_second := getInput calculation.inputs "writes_per_second" 500000
      let read_replicas_needed := max 1 (pyInt (reads_per_second / 10000))
      let shards_needed := max 1 (pyInt ((reads_per_second + writes_per_second) / 50000))
      .ok { component_id := calculation.component_id
            calculation_type := calculation.calculation_type
            inputs := calculation.inputs
            result := .database
              { read_replicas_needed := read_replicas_needed
                write_masters_needed := max 1 (pyInt (writes_per_second / 5000))
                storage_tb_needed := pyInt ((reads_per_second + writes_per_second) * 0.001)
                shards_needed := shards_needed }
            explanation := "For " ++ commaQ reads_per_second ++
              " reads/sec and " ++ commaQ writes_per_second ++
              " writes/sec, you need " ++ toString read_replicas_needed ++
              " read replicas and " ++ toString shards_needed ++ " shards." }
    else if component.type = .load_balancer then
      let requests_per_second := getInput calculation.inputs "requests_per_second" 2000000
      let load_balancers_needed := max 1 (pyInt (requests_per_second / 100000))
      let bandwidth_gbps := pyInt (requests_per_second * 0.01)
      .ok { component_id := calculation.component_id
            calculation_type := calculation.calculation_type
            inputs := calculation.inputs
            result := .loadBalancer
              { load_balancers_needed := load_balancers_needed
                bandwidth_gbps := bandwidth_gbps
                ssl_termination_capacity := pyInt (requests_per_second * 0.8)
                health_checks_per_second := pyInt (requests_per_second * 0.1) }
            explanation := "For " ++ commaQ requests_per_second ++
              " requests/sec, you need " ++ toString load_balancers_needed ++
              " load balancers with " ++ toString bandwidth_gbps ++
              " Gbps bandwidth." }
    else
      .ok { component_id := calculation.component_id
            calculation_type := calculation.calculation_type
            inputs := calculation.inputs
            result := .notImplemented
              "Capacity calculation not implemented for this component type"
            explanation := "Capacity calculation not available for this component." }

/-- Projection of a handler outcome onto its `result` field (`none` when the
handler raised). -/
def resultOf (r : Except ApiError CapacityCalculation) : Option CalcResult :=
  match r with
  | .ok o => some o.result
  | .error _ => none

/-- Projection of a handler outcome onto its `explanation` field. -/
def explanationOf (r : Except ApiError CapacityCalculation) : Option String :=
  match r with
  | .ok o => some o.explanation
  | .error _ => none

/-- Seed component 1 of `initialize_architecture_data`, with its generated id. -/
def seedComponent1 (i : String) : ArchitectureComponent :=
  { id := i
    name := "Global Load Balancer"
    type := .load_balancer
    description := "Distributes 26M concurrent players across global regions"
    detailed_explanation := "Roblox uses a multi-tier load balancing system with geographic distribution. The global load balancer uses DNS-based routing and anycast to direct players to the nearest regional data center. It handles health checks, failover, and capacity-based routing."
    technologies := ["HAProxy", "NGINX", "AWS ELB", "Cloudflare"]
    protocols := ["HTTP/2", "TCP", "DNS", "Anycast"]
    capacity_metrics := [("requests_per_second", 2000000), ("concurrent_connections", 26000000),
      ("latency_ms", 50), ("availability", 99.99)]
    position := [("x", 100), ("y", 100)]
    connections := ["cdn", "api_gateway"]
    difficulty_level := .intermediate
    step_order := 1 }

/-- Seed component 2, with its generated id. -/
def seedComponent2 (i : String) : ArchitectureComponent :=
  { id := i
    name := "Content Delivery Network (CDN)"
    type := .cdn
    description := "Caches game assets and reduces latency globally"
    detailed_explanation := "Roblox\x27s CDN network spans 200+ edge locations worldwide, caching game assets, avatars, and static content. It uses intelligent routing, content optimization, and edge computing to minimize latency for players."
    technologies := ["CloudFront", "Cloudflare", "Akamai", "Custom Edge Servers"]
    protocols := ["HTTP/2", "HTTP/3", "WebRTC", "UDP"]
    capacity_metrics := [("edge_locations", 200), ("cache_hit_ratio", 95),
      ("bandwidth_tbps", 100), ("asset_requests_per_second", 5000000)]
    position := [("x", 300), ("y", 100)]
    connections := ["load_balancer", "storage"]
    difficulty_level := .beginner
    step_order := 2 }

/-- Seed component 3, with its generated id. -/
def seedComponent3 (i : String) : ArchitectureComponent :=
  { id := i
    name := "API Gateway"
    type := .api_gateway
    description := "Routes requests to appropriate microservices"
    detailed_explanation := "The API Gateway acts as a single entry point for all client requests, handling authentication, rate limiting, request routing, and protocol translation. It implements circuit breakers and retries for fault tolerance."
    technologies := ["Kong", "Envoy", "AWS API Gateway", "Custom Service Mesh"]
    protocols := ["HTTP/2", "gRPC", "WebSocket", "TCP"]
    capacity_metrics := [("requests_per_second", 10000000), ("services_managed", 500),
      ("rate_limit_per_user", 1000), ("response_time_ms", 10)]
    position := [("x", 200), ("y", 250)]
    connections := ["load_balancer", "game_server", "database"]
    difficulty_level := .intermediate
    step_order := 3 }

/-- Seed component 4, with its generated id. -/
def seedComponent4 (i : String) : ArchitectureComponent :=
  { id := i
    name := "Game Server Cluster"
    type := .game_server
    description := "Hosts individual game instances and player sessions"
    detailed_explanation := "Roblox runs thousands of game servers across multiple regions. Each server can handle 50-100 concurrent players per game instance. The system uses container orchestration, auto-scaling, and intelligent placement to optimize performance."
    technologies := ["Kubernetes", "Docker", "Custom Game Engine", "Lua Runtime"]
    protocols := ["UDP", "TCP", "WebSocket", "Custom Protocol"]
    capacity_metrics := [("servers_count", 50000), ("players_per_server", 100),
      ("games_hosted", 1000000), ("cpu_utilization", 70)]
    position := [("x", 400), ("y", 350)]
    connections := ["api_gateway", "database", "cache", "message_queue"]
    difficulty_level := .advanced
    step_order := 4 }

/-- Seed component 5, with its generated id. -/
def seedComponent5 (i : String) : ArchitectureComponent :=
  { id := i
    name := "Distributed Database"
    type := .database
    description := "Stores player data, game state, and metadata"
    detailed_explanation := "Roblox uses a combination of SQL and NoSQL databases with horizontal sharding. Player data is partitioned geographically, with read replicas for performance and master-slave replication for consistency."
    technologies := ["MySQL", "MongoDB", "Redis", "Cassandra"]
    protocols := ["MySQL Protocol", "MongoDB Wire Protocol", "Redis Protocol"]
    capacity_metrics := [("shards_count", 1000), ("read_replicas", 5000),
      ("writes_per_second", 500000), ("reads_per_second", 2000000)]
    position := [("x", 100), ("y", 450)]
    connections := ["api_gateway", "game_server", "cache"]
    difficulty_level := .advanced
    step_order := 5 }

/-- Seed component 6, with its generated id. -/
def seedComponent6 (i : String) : ArchitectureComponent :=
  { id := i
    name := "Caching Layer"
    type := .cache
    description := "High-speed data access for frequent operations"
    detailed_explanation := "Multi-tier caching system with L1 (application), L2 (Redis), and L3 (CDN) caches. Implements cache warming, invalidation strategies, and consistent hashing for optimal performance."
    technologies := ["Redis Cluster", "Memcached", "Application Cache", "CDN Cache"]
    protocols := ["Redis Protocol", "Memcached Protocol", "HTTP"]
    capacity_metrics := [("cache_nodes", 5000), ("hit_ratio", 95),
      ("operations_per_second", 10000000), ("memory_tb", 100)]
    position := [("x", 200), ("y", 450)]
    connections := ["game_server", "database", "api_gateway"]
    difficulty_level := .intermediate
    step_order := 6 }

/-- Seed component 7, with its generated id. -/
def seedComponent7 (i : String) : ArchitectureComponent :=
  { id := i
    name := "Message Queue System"
    type := .message_queue
    description := "Handles real-time events and cross-service communication"
    detailed_explanation := "Event-driven architecture using message queues for decoupled communication. Handles player actions, game events, and system notifications with guaranteed delivery and ordering."
    technologies := ["Apache Kafka", "RabbitMQ", "AWS SQS", "Custom Event Bus"]
    protocols := ["Kafka Protocol", "AMQP", "WebSocket", "Server-Sent Events"]
    capacity_metrics := [("messages_per_second", 50000000), ("topics", 10000),
      ("partitions", 100000), ("retention_hours", 168)]
    position := [("x", 500), ("y", 350)]
    connections := ["game_server", "monitoring", "api_gateway"]
    difficulty_level := .advanced
    step_order := 7 }

/-- Seed component 8, with its generated id. -/
def seedComponent8 (i : String) : ArchitectureComponent :=
  { id := i
    name := "Monitoring & Observability"
    type := .monitoring
    description := "Tracks system health and performance metrics"
    detailed_explanation := "Comprehensive monitoring stack with metrics collection, distributed tracing, log aggregation, and alerting. Provides real-time visibility into system performance and user experience."
    technologies := ["Prometheus", "Grafana", "ELK Stack", "Jaeger", "DataDog"]
    protocols := ["HTTP", "gRPC", "StatsD", "OpenTelemetry"]
    capacity_metrics := [("metrics_per_second", 100000000), ("log_entries_per_second", 10000000),
      ("alerts_per_day", 1000), ("dashboards", 5000)]
    position := [("x", 600), ("y", 250)]
    connections := ["message_queue", "game_server", "database"]
    difficulty_level := .intermediate
    step_order := 8 }

/-- Seed component 9, with its generated id. -/
def seedComponent9 (i : String) : ArchitectureComponent :=
  { id := i
    name := "Security & DDoS Protection"
    type := .security
    description := "Protects against attacks and unauthorized access"
    detailed_explanation := "Multi-layered security including DDoS protection, Web Application Firewall, intrusion detection, and rate limiting. Implements OAuth, JWT tokens, and encryption for secure communication."
    technologies := ["Cloudflare", "AWS Shield", "WAF", "OAuth 2.0", "JWT"]
    protocols := ["HTTPS", "OAuth", "JWT", "TLS 1.3"]
    capacity_metrics := [("requests_filtered_per_second", 1000000), ("attack_mitigation_time_ms", 100),
      ("false_positive_rate", 0.1), ("security_events_per_day", 100000)]
    position := [("x", 50), ("y", 250)]
    connections := ["load_balancer", "api_gateway"]
    difficulty_level := .advanced
    step_order := 9 }

/-- Seed component 10, with its generated id. -/
def seedComponent10 (i : String) : ArchitectureComponent :=
  { id := i
    name := "Data Storage & Analytics"
    type := .storage
    description := "Stores game assets, logs, and analytics data"
    detailed_explanation := "Distributed storage system for game assets, player data, and analytics. Uses object storage, data lakes, and real-time analytics for business intelligence and game optimization."
    technologies := ["AWS S3", "HDFS", "Snowflake", "Apache Spark", "BigQuery"]
    protocols := ["HTTP", "HDFS Protocol", "SQL", "Parquet"]
    capacity_metrics := [("storage_pb", 100), ("files_count", 1000000000),
      ("analytics_queries_per_day", 1000000), ("data_processing_tb_per_day", 1000)]
    position := [("x", 400), ("y", 100)]
    connections := ["cdn", "game_server", "monitoring"]
    difficulty_level := .intermediate
    step_order := 10 }

/-- The components collection after startup seeding, given the id-assignment
function `gen` standing for the ten `uuid.uuid4()` draws (one per insert,
in insertion order). -/
def seedComponents (gen : Fin 10 → String) : List ArchitectureComponent :=
  [seedComponent1 (gen 0), seedComponent2 (gen 1), seedComponent3 (gen 2),
   seedComponent4 (gen 3), seedComponent5 (gen 4), seedComponent6 (gen 5),
   seedComponent7 (gen 6), seedComponent8 (gen 7), seedComponent9 (gen 8),
   seedComponent10 (gen 9)]

/-- Seed step 1 of `initialize_architecture_data`, with its generated id. -/
def seedStep1 (i : String) : StepExplanation :=
  { id := i
    step_number := 1
    title := "Player Request Arrives"
    description := "A player opens Roblox and makes a request to join a game"
    components_involved := ["load_balancer", "security"]
    diagram_focus := ["load_balancer"]
    technical_details := [("request_flow",
        .str "Client → DNS → Global Load Balancer → Regional Load Balancer"),
      ("protocols", .strList ["DNS", "HTTP/2", "TLS 1.3"]),
      ("latency_target", .str "< 50ms")]
    beginner_explanation := "When you click \x27Play\x27 on a Roblox game, your request first goes to a load balancer that decides which server should handle your request based on your location and server capacity."
    advanced_explanation := "The global load balancer uses GeoDNS and anycast routing to direct the request to the optimal regional cluster. It performs health checks, capacity assessment, and implements sticky sessions for connection persistence." }

/-- Seed step 2, with its generated id. -/
def seedStep2 (i : String) : StepExplanation :=
  { id := i
    step_number := 2
    title := "Security & DDoS Protection"
    description := "Request passes through security layers and DDoS protection"
    components_involved := ["security", "load_balancer"]
    diagram_focus := ["security"]
    technical_details := [("security_layers",
        .strList ["Rate Limiting", "WAF", "DDoS Protection", "IP Reputation"]),
      ("processing_time", .str "< 5ms"),
      ("blocked_requests_per_second", .num 100000)]
    beginner_explanation := "Before your request reaches the game servers, it passes through security systems that block malicious traffic and protect against attacks."
    advanced_explanation := "Multi-layered security including L3/L4 DDoS protection, L7 WAF rules, behavioral analysis, and machine learning-based threat detection. Implements challenge-response for suspicious traffic." }

/-- Seed step 3, with its generated id. -/
def seedStep3 (i : String) : StepExplanation :=
  { id := i
    step_number := 3
    title := "CDN Asset Delivery"
    description := "Game assets are served from the nearest CDN edge location"
    components_involved := ["cdn", "storage"]
    diagram_focus := ["cdn"]
    technical_details := [("cache_strategy", .str "LRU with TTL"),
      ("edge_locations", .num 200),
      ("cache_hit_ratio", .num 95)]
    beginner_explanation := "Game graphics, sounds, and other files are loaded from servers close to your location for faster loading times."
    advanced_explanation := "Intelligent edge caching with dynamic content optimization, image compression, and prefetching. Uses HTTP/2 push and service workers for optimal asset delivery." }

/-- Seed step 4, with its generated id. -/
def seedStep4 (i : String) : StepExplanation :=
  { id := i
    step_number := 4
    title := "API Gateway Routing"
    description := "Request is routed to appropriate microservices"
    components_involved := ["api_gateway", "game_server"]
    diagram_focus := ["api_gateway"]
    technical_details := [("routing_algorithm", .str "Weighted Round Robin"),
      ("circuit_breaker", .str "Enabled"),
      ("retry_policy", .str "Exponential Backoff")]
    beginner_explanation := "The API Gateway acts like a smart router that sends different types of requests to the right services that can handle them."
    advanced_explanation := "Service mesh with intelligent routing, load balancing, circuit breaking, and distributed tracing. Implements canary deployments and A/B testing capabilities." }

/-- Seed step 5, with its generated id. -/
def seedStep5 (i : String) : StepExplanation :=
  { id := i
    step_number := 5
    title := "Game Server Assignment"
    description := "Player is assigned to an optimal game server instance"
    components_involved := ["game_server", "database", "cache"]
    diagram_focus := ["game_server"]
    technical_details := [("placement_algorithm", .str "Proximity + Capacity"),
      ("server_capacity", .num 100),
      ("scaling_strategy", .str "Horizontal Auto-scaling")]
    beginner_explanation := "You\x27re connected to a game server that has space and is close to your location for the best gaming experience."
    advanced_explanation := "Kubernetes-based orchestration with custom scheduler considering latency, resource utilization, and game-specific requirements. Implements predictive scaling and resource quotas." }

/-- Seed step 6, with its generated id. -/
def seedStep6 (i : String) : StepExplanation :=
  { id := i
    step_number := 6
    title := "Database Operations"
    description := "Player data and game state are retrieved from distributed databases"
    components_involved := ["database", "cache"]
    diagram_focus := ["database"]
    technical_details := [("sharding_strategy", .str "Consistent Hashing"),
      ("replication_factor", .num 3),
      ("consistency_model", .str "Eventually Consistent")]
    beginner_explanation := "Your player profile, inventory, and game progress are loaded from databases that store millions of players\x27 information."
    advanced_explanation := "Horizontally partitioned databases with read replicas, write-through caching, and conflict-free replicated data types (CRDTs) for distributed consistency." }

/-- Seed step 7, with its generated id. -/
def seedStep7 (i : String) : StepExplanation :=
  { id := i
    step_number := 7
    title := "Real-time Communication"
    description := "WebSocket connections established for real-time gameplay"
    components_involved := ["message_queue", "game_server"]
    diagram_focus := ["message_queue"]
    technical_details := [("protocol", .str "WebSocket + Custom Binary"),
      ("message_rate", .str "30 FPS"),
      ("compression", .str "LZ4")]
    beginner_explanation := "A fast, continuous connection is established so you can see other players\x27 actions in real-time as you play."
    advanced_explanation := "Event-driven architecture with message queues, event sourcing, and CQRS pattern. Implements delta compression and client-side prediction for smooth gameplay." }

/-- Seed step 8, with its generated id. -/
def seedStep8 (i : String) : StepExplanation :=
  { id := i
    step_number := 8
    title := "Monitoring & Analytics"
    description := "System continuously monitors performance and player behavior"
    components_involved := ["monitoring", "storage"]
    diagram_focus := ["monitoring"]
    technical_details := [("metrics_collection", .str "Prometheus + Custom Collectors"),
      ("log_aggregation", .str "ELK Stack"),
      ("alerting", .str "PagerDuty Integration")]
    beginner_explanation := "Behind the scenes, systems constantly check that everything is working properly and collect data to improve the game."
    advanced_explanation := "Distributed tracing with OpenTelemetry, real-time anomaly detection, and machine learning-based capacity planning. Implements SLI/SLO monitoring and automated remediation." }

/-- The steps collection after startup seeding, given the id-assignment
function `gen` standing for the eight `uuid.uuid4()` draws. -/
def seedSteps (gen : Fin 8 → String) : List StepExplanation :=
  [seedStep1 (gen 0), seedStep2 (gen 1), seedStep3 (gen 2), seedStep4 (gen 3),
   seedStep5 (gen 4), seedStep6 (gen 5), seedStep7 (gen 6), seedStep8 (gen 7)]

/-- Demo id assignment: ten distinct ids standing for concrete uuid draws. -/
def demoIds : Fin 10 → String := fun i =>
  ["c1", "c2", "c3", "c4", "c5", "c6", "c7", "c8", "c9", "c10"].get i

/-- Demo id assignment for the eight seeded steps. -/
def demoStepIds : Fin 8 → String := fun i =>
  ["s1", "s2", "s3", "s4", "s5", "s6", "s7", "s8"].get i

/-- C1: for every capacity calculation on a component whose category is
`game_server` (and whose division does not raise), the result equals
`servers_needed = ceil(concurrent_players / players_per_server)` with
defaults 26000000 and 100, `cpu_cores_total = servers_needed * 4`,
`memory_gb_total = servers_needed * 8`, `network_gbps = servers_needed * 0.1`;
in particular inputs `{concurrent_players: 30000000, players_per_server: 80}`
yield `servers_needed = 375000`. -/
theorem game_server_capacity_formula :
    (∀ (store : List ArchitectureComponent) (req : CapacityCalculationInput)
       (c : ArchitectureComponent),
       resolveComponent store req.component_id = some c →
       c.type = .game_server →
       getInput req.inputs "players_per_server" 100 ≠ 0 →
       resultOf (calculate_capacity store req) =
         some (.gameServer
           { servers_needed := ⌈getInput req.inputs "concurrent_players" 26000000 /
               getInput req.inputs "players_per_server" 100⌉
             cpu_cores_total := ⌈getInput req.inputs "concurrent_players" 26000000 /
               getInput req.inputs "players_per_server" 100⌉ * 4
             memory_gb_total := ⌈getInput req.inputs "concurrent_players" 26000000 /
               getInput req.inputs "players_per_server" 100⌉ * 8
             network_gbps := ((⌈getInput req.inputs "concurrent_players" 26000000 /
               getInput req.inputs "players_per_server" 100⌉ : Int) : ℚ) * 0.1 }))
    ∧ resultOf (calculate_capacity (seedComponents demoIds)
        { component_id := demoIds 3
          calculation_type := "game_server_capacity"
          inputs := [("concurrent_players", 30000000), ("players_per_server", 80)] })
        = some (.gameServer
            { servers_needed := 375000, cpu_cores_total := 1500000,
              memory_gb_total := 3000000, network_gbps := 37500 }) := by
  have main : ∀ (store : List ArchitectureComponent) (req : CapacityCalculationInput)
      (c : ArchitectureComponent),
      resolveComponent store req.component_id = some c →
      c.type = .game_server →
      getInput req.inputs "players_per_server" 100 ≠ 0 →
      resultOf (calculate_capacity store req) =
        some (.gameServer
          { servers_needed := ⌈getInput req.inputs "concurrent_players" 26000000 /
              getInput req.inputs "players_per_server" 100⌉
            cpu_cores_total := ⌈getInput req.inputs "concurrent_players" 26000000 /
              getInput req.inputs "players_per_server" 100⌉ * 4
            memory_gb_total := ⌈getInput req.inputs "concurrent_players" 26000000 /
              getInput req.inputs "players_per_server" 100⌉ * 8
            network_gbps := ((⌈getInput req.inputs "concurrent_players" 26000000 /
              getInput req.inputs "players_per_server" 100⌉ : Int) : ℚ) * 0.1 }) := by
    intro store req c hres htype hpps
    simp only [calculate_capacity, hres]
    rw [if_pos htype, if_neg hpps]
    simp [resultOf]
  refine ⟨main, ?_⟩
  have h := main (seedComponents demoIds)
    { component_id := demoIds 3
      calculation_type := "game_server_capacity"
      inputs := [("concurrent_players", 30000000), ("players_per_server", 80)] }
    (seedComponent4 (demoIds 3)) rfl rfl (by simp [getInput])
  rw [h]
  have h30 : getInput [("concurrent_players", (30000000 : ℚ)), ("players_per_server", 80)]
      "concurrent_players" 26000000 = 30000000 := by simp [getInput]
  have h80 : getInput [("concurrent_players", (30000000 : ℚ)), ("players_per_server", 80)]
      "players_per_server" 100 = 80 := by simp [getInput]
  rw [h30, h80]
  have hceil : (⌈(30000000 : ℚ) / 80⌉ : Int) = 375000 := by
    rw [show (30000000 : ℚ) / 80 = ((375000 : ℤ) : ℚ) by norm_num, Int.ceil_intCast]
  rw [hceil]
  norm_num

/-- Witness for C1: at the seeded `game_server` component with empty inputs
the defaults 26000000 and 100 produce 260000 servers. -/
theorem game_server_capacity_formula_witness :
    resultOf (calculate_capacity (seedComponents demoIds)
      { component_id := demoIds 3, calculation_type := "game_server_capacity",
        inputs := [] })
      = some (.gameServer
          { servers_needed := 260000, cpu_cores_total := 1040000,
            memory_gb_total := 2080000, network_gbps := 26000 }) := by
  have h := game_server_capacity_formula.1 (seedComponents demoIds)
    { component_id := demoIds 3, calculation_type := "game_server_capacity", inputs := [] }
    (seedComponent4 (demoIds 3)) rfl rfl (by simp [getInput])
  rw [h]
  have hg1 : getInput [] "concurrent_players" 26000000 = 26000000 := by simp [getInput]
  have hg2 : getInput [] "players_per_server" 100 = 100 := by simp [getInput]
  rw [hg1, hg2]
  have hceil : (⌈(26000000 : ℚ) / 100⌉ : Int) = 260000 := by
    rw [show (26000000 : ℚ) / 100 = ((260000 : ℤ) : ℚ) by norm_num, Int.ceil_intCast]
  rw [hceil]
  norm_num

/-- Helper: Python `int()` of an integral rational is that integer. -/
theorem pyInt_intCast (n : ℤ) : pyInt ((n : ℤ) : ℚ) = n := by
  rw [pyInt]
  split
  · exact Int.floor_intCast n
  · exact Int.ceil_intCast n

/-- Helper: Python `int()` agrees with `floor` on nonnegative values. -/
theorem pyInt_eq_floor_of_nonneg {q : ℚ} (h : 0 ≤ q) : pyInt q = ⌊q⌋ :=
  if_pos h

/-- Counterexample to C2: on a `database` component with inputs
`{reads_per_second: -10500, writes_per_second: 0}` the code computes
`storage_tb_needed = int(-10.5) = -10` (truncation toward zero), whereas the
claim's formula `floor((reads+writes) * 0.001)` gives `-11`. -/
theorem database_capacity_floor_counterexample :
    resultOf (calculate_capacity (seedComponents demoIds)
      { component_id := demoIds 4
        calculation_type := "database_capacity"
        inputs := [("reads_per_second", -10500), ("writes_per_second", 0)] })
      = some (.database
          { read_replicas_needed := 1, write_masters_needed := 1,
            storage_tb_needed := -10, shards_needed := 1 })
    ∧ (⌊(((-10500 : ℚ) + 0) * 0.001)⌋ : Int) = -11
    ∧ ((-10 : Int) ≠ -11) := by
  refine ⟨?_, ?_, by decide⟩
  · have hres : resolveComponent (seedComponents demoIds) (demoIds 4) =
        some (seedComponent5 (demoIds 4)) := rfl
    simp only [calculate_capacity, hres]
    have hr : getInput [(("reads_per_second" : String), (-10500 : ℚ)),
        ("writes_per_second", 0)] "reads_per_second" 2000000 = -10500 := by
      simp [getInput]
    have hw : getInput [(("reads_per_second" : String), (-10500 : ℚ)),
        ("writes_per_second", 0)] "writes_per_second" 500000 = 0 := by
      simp [getInput]
    simp only [seedComponent5, resultOf, hr, hw]
    rw [if_neg (show ¬(ComponentType.database = ComponentType.game_server) by decide),
      if_true]
    norm_num
    refine ⟨?_, ?_, ?_, ?_⟩
    · rw [pyInt, if_neg (by norm_num), Int.ceil_le]
      norm_num
    · rw [pyInt, if_pos (by norm_num)]
      simp
    · rw [pyInt, if_neg (by norm_num), Int.ceil_eq_iff]
      constructor <;> norm_num
    · rw [pyInt, if_neg (by norm_num), Int.ceil_le]
      norm_num
  · rw [show ((-10500 : ℚ) + 0) * 0.001 = (-21 / 2 : ℚ) by norm_num, Int.floor_eq_iff]
    constructor <;> norm_num

/-- C2 (amended): for every capacity calculation on a `database` component,
with `reads_per_second` defaulting to 2000000 and `writes_per_second` to
500000, the result applies the code's truncation toward zero (`pyInt`,
Python `int()`) — which agrees with `floor` on nonnegative values — in
`read_replicas_needed = max(1, int(reads/10000))`,
`write_masters_needed = max(1, int(writes/5000))`,
`storage_tb_needed = int((reads+writes) * 0.001)`,
`shards_needed = max(1, int((reads+writes)/50000))`; in particular inputs
`{reads_per_second: 2000000, writes_per_second: 500000}` yield
`read_replicas_needed = 200` and `shards_needed = 50`. -/
theorem database_capacity_formula_trunc :
    (∀ (store : List ArchitectureComponent) (req : CapacityCalculationInput)
       (c : ArchitectureComponent),
       resolveComponent store req.component_id = some c →
       c.type = .database →
       resultOf (calculate_capacity store req) =
         some (.database
           { read_replicas_needed :=
               max 1 (pyInt (getInput req.inputs "reads_per_second" 2000000 / 10000))
             write_masters_needed :=
               max 1 (pyInt (getInput req.inputs "writes_per_second" 500000 / 5000))
             storage_tb_needed :=
               pyInt ((getInput req.inputs "reads_per_second" 2000000 +
                 getInput req.inputs "writes_per_second" 500000) * 0.001)
             shards_needed :=
               max 1 (pyInt ((getInput req.inputs "reads_per_second" 2000000 +
                 getInput req.inputs "writes_per_second" 500000) / 50000)) }))
    ∧ (∀ q : ℚ, 0 ≤ q → pyInt q = ⌊q⌋)
    ∧ resultOf (calculate_capacity (seedComponents demoIds)
        { component_id := demoIds 4
          calculation_type := "database_capacity"
          inputs := [("reads_per_second", 2000000), ("writes_per_second", 500000)] })
        = some (.database
            { read_replicas_needed := 200, write_masters_needed := 100,
              storage_tb_needed := 2500, shards_needed := 50 }) := by
  have main : ∀ (store : List ArchitectureComponent) (req : CapacityCalculationInput)
      (c : ArchitectureComponent),
      resolveComponent store req.component_id = some c →
      c.type = .database →
      resultOf (calculate_capacity store req) =
        some (.database
          { read_replicas_needed :=
              max 1 (pyInt (getInput req.inputs "reads_per_second" 2000000 / 10000))
            write_masters_needed :=
              max 1 (pyInt (getInput req.inputs "writes_per_second" 500000 / 5000))
            storage_tb_needed :=
              pyInt ((getInput req.inputs "reads_per_second" 2000000 +
                getInput req.inputs "writes_per_second" 500000) * 0.001)
            shards_needed :=
              max 1 (pyInt ((getInput req.inputs "reads_per_second" 2000000 +
                getInput req.inputs "writes_per_second" 500000) / 50000)) }) := by
    intro store req c hres htype
    simp only [calculate_capacity, hres, htype]
    rw [if_neg (show ¬(ComponentType.database = ComponentType.game_server) by decide),
      if_true]
    simp [resultOf]
  refine ⟨main, fun q h => pyInt_eq_floor_of_nonneg h, ?_⟩
  have h := main (seedComponents demoIds)
    { component_id := demoIds 4
      calculation_type := "database_capacity"
      inputs := [("reads_per_second", 2000000), ("writes_per_second", 500000)] }
    (seedComponent5 (demoIds 4)) rfl rfl
  rw [h]
  have e1 : getInput [(("reads_per_second" : String), (2000000 : ℚ)),
      ("writes_per_second", 500000)] "reads_per_second" 2000000 = 2000000 := by
    simp [getInput]
  have e2 : getInput [(("reads_per_second" : String), (2000000 : ℚ)),
      ("writes_per_second", 500000)] "writes_per_second" 500000 = 500000 := by
    simp [getInput]
  rw [e1, e2]
  rw [show (2000000 : ℚ) / 10000 = ((200 : ℤ) : ℚ) by norm_num, pyInt_intCast]
  rw [show (500000 : ℚ) / 5000 = ((100 : ℤ) : ℚ) by norm_num, pyInt_intCast]
  rw [show ((2000000 : ℚ) + 500000) * 0.001 = ((2500 : ℤ) : ℚ) by norm_num, pyInt_intCast]
  rw [show ((2000000 : ℚ) + 500000) / 50000 = ((50 : ℤ) : ℚ) by norm_num, pyInt_intCast]
  norm_num

/-- Witness for C2 (amended): at the seeded `database` component with empty
inputs, the defaults 2000000 reads and 500000 writes give 200 read replicas,
100 write masters, 2500 TB and 50 shards. -/
theorem database_capacity_formula_trunc_witness :
    resultOf (calculate_capacity (seedComponents demoIds)
      { component_id := demoIds 4, calculation_type := "database_capacity",
        inputs := [] })
      = some (.database
          { read_replicas_needed := 200, write_masters_needed := 100,
            storage_tb_needed := 2500, shards_needed := 50 }) := by
  have h := database_capacity_formula_trunc.1 (seedComponents demoIds)
    { component_id := demoIds 4, calculation_type := "database_capacity", inputs := [] }
    (seedComponent5 (demoIds 4)) rfl rfl
  rw [h]
  have e1 : getInput [] "reads_per_second" 2000000 = 2000000 := by simp [getInput]
  have e2 : getInput [] "writes_per_second" 500000 = 500000 := by simp [getInput]
  rw [e1, e2]
  rw [show (2000000 : ℚ) / 10000 = ((200 : ℤ) : ℚ) by norm_num, pyInt_intCast]
  rw [show (500000 : ℚ) / 5000 = ((100 : ℤ) : ℚ) by norm_num, pyInt_intCast]
  rw [show ((2000000 : ℚ) + 500000) * 0.001 = ((2500 : ℤ) : ℚ) by norm_num, pyInt_intCast]
  rw [show ((2000000 : ℚ) + 500000) / 50000 = ((50 : ℤ) : ℚ) by norm_num, pyInt_intCast]
  norm_num

/-- Counterexample to C3: on a `load_balancer` component with input
`{requests_per_second: -150}` the code computes
`bandwidth_gbps = int(-1.5) = -1` (truncation toward zero), whereas the
claim's formula `floor(rps * 0.01)` gives `-2`. -/
theorem load_balancer_capacity_floor_counterexample :
    resultOf (calculate_capacity (seedComponents demoIds)
      { component_id := demoIds 0
        calculation_type := "load_balancer_capacity"
        inputs := [("requests_per_second", -150)] })
      = some (.loadBalancer
          { load_balancers_needed := 1, bandwidth_gbps := -1,
            ssl_termination_capacity := -120, health_checks_per_second := -15 })
    ∧ (⌊((-150 : ℚ) * 0.01)⌋ : Int) = -2
    ∧ ((-1 : Int) ≠ -2) := by
  refine ⟨?_, ?_, by decide⟩
  · have hres : resolveComponent (seedComponents demoIds) (demoIds 0) =
        some (seedComponent1 (demoIds 0)) := rfl
    simp only [calculate_capacity, hres]
    have hr : getInput [(("requests_per_second" : String), (-150 : ℚ))]
        "requests_per_second" 2000000 = -150 := by
      simp [getInput]
    simp only [seedComponent1, resultOf, hr]
    rw [if_neg (show ¬(ComponentType.load_balancer = ComponentType.game_server) by decide),
      if_neg (show ¬(ComponentType.load_balancer = ComponentType.database) by decide),
      if_true]
    norm_num
    refine ⟨?_, ?_, ?_, ?_⟩
    · rw [pyInt, if_neg (by norm_num), Int.ceil_le]
      norm_num
    · rw [pyInt, if_neg (by norm_num), Int.ceil_eq_iff]
      constructor <;> norm_num
    · rw [show (-120 : ℚ) = ((-120 : ℤ) : ℚ) by norm_num, pyInt_intCast]
    · rw [show (-15 : ℚ) = ((-15 : ℤ) : ℚ) by norm_num, pyInt_intCast]
  · rw [show (-150 : ℚ) * 0.01 = (-3 / 2 : ℚ) by norm_num, Int.floor_eq_iff]
    constructor <;> norm_num

/-- C3 (amended): for every capacity calculation on a `load_balancer`
component, with `requests_per_second` defaulting to 2000000, the result
applies the code's truncation toward zero (`pyInt`, Python `int()`) — which
agrees with `floor` on nonnegative values — in
`load_balancers_needed = max(1, int(rps/100000))`,
`bandwidth_gbps = int(rps * 0.01)`,
`ssl_termination_capacity = int(rps * 0.8)`,
`health_checks_per_second = int(rps * 0.1)`; in particular input
`{requests_per_second: 2000000}` yields `load_balancers_needed = 20` and
`bandwidth_gbps = 20000`. -/
theorem load_balancer_capacity_formula_trunc :
    (∀ (store : List ArchitectureComponent) (req : CapacityCalculationInput)
       (c : ArchitectureComponent),
       resolveComponent store req.component_id = some c →
       c.type = .load_balancer →
       resultOf (calculate_capacity store req) =
         some (.loadBalancer
           { load_balancers_needed :=
               max 1 (pyInt (getInput req.inputs "requests_per_second" 2000000 / 100000))
             bandwidth_gbps :=
               pyInt (getInput req.inputs "requests_per_second" 2000000 * 0.01)
             ssl_termination_capacity :=
               pyInt (getInput req.inputs "requests_per_second" 2000000 * 0.8)
             health_checks_per_second :=
               pyInt (getInput req.inputs "requests_per_second" 2000000 * 0.1) }))
    ∧ (∀ q : ℚ, 0 ≤ q → pyInt q = ⌊q⌋)
    ∧ resultOf (calculate_capacity (seedComponents demoIds)
        { component_id := demoIds 0
          calculation_type := "load_balancer_capacity"
          inputs := [("requests_per_second", 2000000)] })
        = some (.loadBalancer
            { load_balancers_needed := 20, bandwidth_gbps := 20000,
              ssl_termination_capacity := 1600000, health_checks_per_second := 200000 }) := by
  have main : ∀ (store : List ArchitectureComponent) (req : CapacityCalculationInput)
      (c : ArchitectureComponent),
      resolveComponent store req.component_id = some c →
      c.type = .load_balancer →
      resultOf (calculate_capacity store req) =
        some (.loadBalancer
          { load_balancers_needed :=
              max 1 (pyInt (getInput req.inputs "requests_per_second" 2000000 / 100000))
            bandwidth_gbps :=
              pyInt (getInput req.inputs "requests_per_second" 2000000 * 0.01)
            ssl_termination_capacity :=
              pyInt (getInput req.inputs "requests_per_second" 2000000 * 0.8)
            health_checks_per_second :=
              pyInt (getInput req.inputs "requests_per_second" 2000000 * 0.1) }) := by
    intro store req c hres htype
    simp only [calculate_capacity, hres, htype]
    rw [if_neg (show ¬(ComponentType.load_balancer = ComponentType.game_server) by decide),
      if_neg (show ¬(ComponentType.load_balancer = ComponentType.database) by decide),
      if_true]
    simp [resultOf]
  refine ⟨main, fun q h => pyInt_eq_floor_of_nonneg h, ?_⟩
  have h := main (seedComponents demoIds)
    { component_id := demoIds 0
      calculation_type := "load_balancer_capacity"
      inputs := [("requests_per_second", 2000000)] }
    (seedComponent1 (demoIds 0)) rfl rfl
  rw [h]
  have e1 : getInput [(("requests_per_second" : String), (2000000 : ℚ))]
      "requests_per_second" 2000000 = 2000000 := by
    simp [getInput]
  rw [e1]
  rw [show (2000000 : ℚ) / 100000 = ((20 : ℤ) : ℚ) by norm_num, pyInt_intCast]
  rw [show (2000000 : ℚ) * 0.01 = ((20000 : ℤ) : ℚ) by norm_num, pyInt_intCast]
  rw [show (2000000 : ℚ) * 0.8 = ((1600000 : ℤ) : ℚ) by norm_num, pyInt_intCast]
  rw [show (2000000 : ℚ) * 0.1 = ((200000 : ℤ) : ℚ) by norm_num, pyInt_intCast]
  norm_num

/-- Witness for C3 (amended): at the seeded `load_balancer` component with
empty inputs, the default 2000000 requests per second gives 20 load
balancers, 20000 Gbps, 1600000 SSL capacity and 200000 health checks. -/
theorem load_balancer_capacity_formula_trunc_witness :
    resultOf (calculate_capacity (seedComponents demoIds)
      { component_id := demoIds 0, calculation_type := "load_balancer_capacity",
        inputs := [] })
      = some (.loadBalancer
          { load_balancers_needed := 20, bandwidth_gbps := 20000,
            ssl_termination_capacity := 1600000, health_checks_per_second := 200000 }) := by
  have h := load_balancer_capacity_formula_trunc.1 (seedComponents demoIds)
    { component_id := demoIds 0, calculation_type := "load_balancer_capacity", inputs := [] }
    (seedComponent1 (demoIds 0)) rfl rfl
  rw [h]
  have e1 : getInput [] "requests_per_second" 2000000 = 2000000 := by simp [getInput]
  rw [e1]
  rw [show (2000000 : ℚ) / 100000 = ((20 : ℤ) : ℚ) by norm_num, pyInt_intCast]
  rw [show (2000000 : ℚ) * 0.01 = ((20000 : ℤ) : ℚ) by norm_num, pyInt_intCast]
  rw [show (2000000 : ℚ) * 0.8 = ((1600000 : ℤ) : ℚ) by norm_num, pyInt_intCast]
  rw [show (2000000 : ℚ) * 0.1 = ((200000 : ℤ) : ℚ) by norm_num, pyInt_intCast]
  norm_num

/-- Counterexample to C4: on the seeded `game_server` component, the numeric
input `{players_per_server: 0}` makes `players / players_per_server` raise
`ZeroDivisionError`, although the component id resolves — so NotFound is not
the only failure mode. -/
theorem calculate_capacity_zero_division_counterexample :
    (resolveComponent (seedComponents demoIds) (demoIds 3)).isSome = true
    ∧ calculate_capacity (seedComponents demoIds)
        { component_id := demoIds 3
          calculation_type := "game_server_capacity"
          inputs := [("players_per_server", 0)] }
        = .error .zeroDivisionError
    ∧ (ApiError.zeroDivisionError ≠ ApiError.httpNotFound "Component not found") := by
  refine ⟨rfl, ?_, by decide⟩
  have hres : resolveComponent (seedComponents demoIds) (demoIds 3) =
      some (seedComponent4 (demoIds 3)) := rfl
  have hpps : getInput [(("players_per_server" : String), (0 : ℚ))]
      "players_per_server" 100 = 0 := by
    simp [getInput]
  simp only [calculate_capacity, hres]
  rw [if_pos (show (seedComponent4 (demoIds 3)).type = .game_server from rfl),
    if_pos hpps]

/-- C4 (amended): the capacity-calculation operation has exactly two failure
modes — it signals NotFound (404, "Component not found") precisely when the
component id does not resolve, raises `ZeroDivisionError` precisely when the
component resolves to a `game_server` and the `players_per_server` input is
zero, and for every resolving component id and numeric inputs avoiding that
zero divisor it completes normally and returns a result. -/
theorem calculate_capacity_error_characterization :
    ∀ (store : List ArchitectureComponent) (req : CapacityCalculationInput),
      (calculate_capacity store req = .error (.httpNotFound "Component not found") ↔
        resolveComponent store req.component_id = none)
      ∧ (calculate_capacity store req = .error .zeroDivisionError ↔
          ∃ c, resolveComponent store req.component_id = some c ∧
            c.type = .game_server ∧ getInput req.inputs "players_per_server" 100 = 0)
      ∧ (∀ c, resolveComponent store req.component_id = some c →
          (c.type = .game_server → getInput req.inputs "players_per_server" 100 ≠ 0) →
          ∃ o, calculate_capacity store req = .ok o) := by
  intro store req
  cases h : resolveComponent store req.component_id with
  | none =>
    refine ⟨?_, ?_, ?_⟩
    · simp [calculate_capacity, h]
    · simp [calculate_capacity, h]
    · intro c hc
      simp at hc
  | some c =>
    by_cases h1 : c.type = .game_server
    · by_cases h2 : getInput req.inputs "players_per_server" 100 = 0
      · refine ⟨?_, ?_, ?_⟩
        · simp [calculate_capacity, h, h1, h2]
        · simp only [calculate_capacity, h]
          rw [if_pos h1, if_pos h2]
          simp [h1, h2]
        · intro c' hc' himp
          injection hc' with hcc
          subst hcc
          exact absurd h2 (himp h1)
      · refine ⟨?_, ?_, ?_⟩
        · simp [calculate_capacity, h, h1, h2]
        · simp only [calculate_capacity, h]
          rw [if_pos h1, if_neg h2]
          simp [h2]
        · intro c' hc' himp
          simp only [calculate_capacity, h]
          rw [if_pos h1, if_neg h2]
          exact ⟨_, rfl⟩
    · have hne : ∀ o : Except ApiError CapacityCalculation,
          (∃ x, o = .ok x) → (∀ e, o ≠ .error e) := by
        rintro o ⟨x, rfl⟩ e
        simp
      have hok : ∃ o, calculate_capacity store req = .ok o := by
        simp only [calculate_capacity, h]
        rw [if_neg h1]
        by_cases h3 : c.type = .database
        · rw [if_pos h3]
          exact ⟨_, rfl⟩
        · rw [if_neg h3]
          by_cases h4 : c.type = .load_balancer
          · rw [if_pos h4]
            exact ⟨_, rfl⟩
          · rw [if_neg h4]
            exact ⟨_, rfl⟩
      refine ⟨?_, ?_, ?_⟩
      · constructor
        · intro habs
          exact absurd habs (hne _ hok _)
        · intro habs
          simp at habs
      · constructor
        · intro habs
          exact absurd habs (hne _ hok _)
        · rintro ⟨c', hc', htype, _⟩
          injection hc' with hcc
          subst hcc
          exact absurd htype h1
      · intro c' hc' himp
        exact hok

/-- Witness for C4 (amended): an unresolvable component id yields exactly the
404 "Component not found" error. -/
theorem calculate_capacity_error_characterization_witness :
    calculate_capacity (seedComponents demoIds)
      { component_id := "missing", calculation_type := "t", inputs := [] }
      = .error (.httpNotFound "Component not found") :=
  ((calculate_capacity_error_characterization (seedComponents demoIds)
    { component_id := "missing", calculation_type := "t", inputs := [] }).1).mpr rfl

/-- C5: the capacity calculator is a pure function of the stored component
(resolved from `component_id`) and the `inputs` mapping only — two requests
with the same `component_id` and identical `inputs` get identical `result`
and `explanation` whatever their `calculation_type`, and the
`component_id`, `calculation_type` and `inputs` fields are echoed back
unchanged in every successful response. -/
theorem calculate_capacity_pure :
    (∀ (store : List ArchitectureComponent) (r1 r2 : CapacityCalculationInput),
       r1.component_id = r2.component_id →
       r1.inputs = r2.inputs →
       resultOf (calculate_capacity store r1) = resultOf (calculate_capacity store r2) ∧
       explanationOf (calculate_capacity store r1) =
         explanationOf (calculate_capacity store r2))
    ∧ (∀ (store : List ArchitectureComponent) (req : CapacityCalculationInput)
         (o : CapacityCalculation),
         calculate_capacity store req = .ok o →
         o.component_id = req.component_id ∧
         o.calculation_type = req.calculation_type ∧
         o.inputs = req.inputs) := by
  constructor
  · intro store r1 r2 h1 h2
    obtain ⟨cid1, t1, in1⟩ := r1
    obtain ⟨cid2, t2, in2⟩ := r2
    simp only at h1 h2
    subst h1
    subst h2
    constructor
    · cases hres : resolveComponent store cid1
      · simp only [calculate_capacity, hres]
      · simp only [calculate_capacity, hres]
        split_ifs <;> rfl
    · cases hres : resolveComponent store cid1
      · simp only [calculate_capacity, hres]
      · simp only [calculate_capacity, hres]
        split_ifs <;> rfl
  · intro store req o h
    cases hres : resolveComponent store req.component_id <;>
      simp only [calculate_capacity, hres] at h
    · exact absurd h (by simp)
    · split_ifs at h
      all_goals (injection h with ho; subst ho)
      all_goals exact ⟨rfl, rfl, rfl⟩

/-- Witness for C5: two concrete requests for the seeded `game_server`
component that differ only in `calculation_type` produce the same result and
the same explanation. -/
theorem calculate_capacity_pure_witness :
    resultOf (calculate_capacity (seedComponents demoIds)
      { component_id := demoIds 3, calculation_type := "alpha", inputs := [] }) =
    resultOf (calculate_capacity (seedComponents demoIds)
      { component_id := demoIds 3, calculation_type := "beta", inputs := [] })
    ∧ explanationOf (calculate_capacity (seedComponents demoIds)
      { component_id := demoIds 3, calculation_type := "alpha", inputs := [] }) =
    explanationOf (calculate_capacity (seedComponents demoIds)
      { component_id := demoIds 3, calculation_type := "beta", inputs := [] }) :=
  calculate_capacity_pure.1 (seedComponents demoIds)
    { component_id := demoIds 3, calculation_type := "alpha", inputs := [] }
    { component_id := demoIds 3, calculation_type := "beta", inputs := [] }
    rfl rfl

/-- C6: for every capacity calculation on a component whose category is none
of `game_server`, `database`, `load_balancer` — i.e. one of `cdn`,
`api_gateway`, `cache`, `message_queue`, `monitoring`, `security`,
`storage` — the operation does not error: it returns a success whose result
is the fixed placeholder mapping and whose explanation is the fixed
"not available" string. -/
theorem calculate_capacity_not_implemented :
    ∀ (store : List ArchitectureComponent) (req : CapacityCalculationInput)
      (c : ArchitectureComponent),
      resolveComponent store req.component_id = some c →
      c.type ∈ [ComponentType.cdn, ComponentType.api_gateway, ComponentType.cache,
        ComponentType.message_queue, ComponentType.monitoring, ComponentType.security,
        ComponentType.storage] →
      calculate_capacity store req =
        .ok { component_id := req.component_id
              calculation_type := req.calculation_type
              inputs := req.inputs
              result := .notImplemented
                "Capacity calculation not implemented for this component type"
              explanation := "Capacity calculation not available for this component." } := by
  intro store req c hres hmem
  simp only [List.mem_cons, List.not_mem_nil, or_false] at hmem
  rcases hmem with h|h|h|h|h|h|h <;>
  · simp only [calculate_capacity, hres, h]
    rw [if_neg (by decide), if_neg (by decide), if_neg (by decide)]

/-- Witness for C6: the seeded `cdn` component yields the placeholder result
and the fixed explanation string. -/
theorem calculate_capacity_not_implemented_witness :
    calculate_capacity (seedComponents demoIds)
      { component_id := demoIds 1, calculation_type := "cdn_capacity", inputs := [] }
      = .ok { component_id := demoIds 1
              calculation_type := "cdn_capacity"
              inputs := []
              result := .notImplemented
                "Capacity calculation not implemented for this component type"
              explanation := "Capacity calculation not available for this component." } :=
  calculate_capacity_not_implemented (seedComponents demoIds)
    { component_id := demoIds 1, calculation_type := "cdn_capacity", inputs := [] }
    (seedComponent2 (demoIds 1)) rfl (by decide)

/-- C7: `get_component` returns the unique stored component with the
requested id when one exists and signals 404 "Component not found" exactly
when none does; `get_step` likewise with 404 "Step not found" for
`step_number`; neither can produce any other error. -/
theorem get_component_get_step_lookup :
    (∀ (store : List ArchitectureComponent) (component_id : String),
       ((∀ c ∈ store, c.id ≠ component_id) →
         get_component store component_id =
           .error (.httpNotFound "Component not found"))
       ∧ (∀ c, c ∈ store → c.id = component_id →
           (∀ c' ∈ store, c'.id = component_id → c' = c) →
           get_component store component_id = .ok c)
       ∧ (∀ e, get_component store component_id = .error e →
           e = .httpNotFound "Component not found"))
    ∧ (∀ (store : List StepExplanation) (n : Int),
       ((∀ s ∈ store, s.step_number ≠ n) →
         get_step store n = .error (.httpNotFound "Step not found"))
       ∧ (∀ s, s ∈ store → s.step_number = n →
           (∀ s' ∈ store, s'.step_number = n → s' = s) →
           get_step store n = .ok s)
       ∧ (∀ e, get_step store n = .error e →
           e = .httpNotFound "Step not found")) := by
  constructor
  · intro store component_id
    refine ⟨?_, ?_, ?_⟩
    · intro h
      have hf : store.find? (fun c => c.id == component_id) = none := by
        rw [List.find?_eq_none]
        intro x hx
        simpa using h x hx
      simp [get_component, resolveComponent, hf]
    · intro c hc hid h
      cases hf : store.find? (fun c => c.id == component_id) with
      | none =>
        rw [List.find?_eq_none] at hf
        exact absurd (by simpa using hid) (by simpa using hf c hc)
      | some x =>
        have hx := List.find?_some hf
        have hmem : x ∈ store := List.mem_of_find?_eq_some hf
        have hxc : x = c := h x hmem (by simpa using hx)
        subst hxc
        simp [get_component, resolveComponent, hf]
    · intro e he
      cases hf : store.find? (fun c => c.id == component_id) with
      | none =>
        simp only [get_component, resolveComponent, hf] at he
        injection he with he1
        exact he1.symm
      | some x =>
        simp [get_component, resolveComponent, hf] at he
  · intro store n
    refine ⟨?_, ?_, ?_⟩
    · intro h
      have hf : store.find? (fun s => s.step_number == n) = none := by
        rw [List.find?_eq_none]
        intro x hx
        simpa using h x hx
      simp [get_step, hf]
    · intro s hs hid h
      cases hf : store.find? (fun s => s.step_number == n) with
      | none =>
        rw [List.find?_eq_none] at hf
        exact absurd (by simpa using hid) (by simpa using hf s hs)
      | some x =>
        have hx := List.find?_some hf
        have hmem : x ∈ store := List.mem_of_find?_eq_some hf
        have hxs : x = s := h x hmem (by simpa using hx)
        subst hxs
        simp [get_step, hf]
    · intro e he
      cases hf : store.find? (fun s => s.step_number == n) with
      | none =>
        simp only [get_step, hf] at he
        injection he with he1
        exact he1.symm
      | some x =>
        simp [get_step, hf] at he

/-- Witness for C7: in a one-component, one-step store the lookups return
the stored documents, and an id with no matching component yields the 404
"Component not found" error. -/
theorem get_component_get_step_lookup_witness :
    get_component [seedComponent1 "a"] "a" = .ok (seedComponent1 "a")
    ∧ get_step [seedStep1 "s"] 1 = .ok (seedStep1 "s")
    ∧ get_component [seedComponent1 "a"] "b" =
        .error (.httpNotFound "Component not found") :=
  ⟨((get_component_get_step_lookup.1 [seedComponent1 "a"] "a").2.1
      (seedComponent1 "a") (List.mem_singleton.mpr rfl) rfl
      (fun c' hc' _ => List.mem_singleton.mp hc')),
   ((get_component_get_step_lookup.2 [seedStep1 "s"] 1).2.1
      (seedStep1 "s") (List.mem_singleton.mpr rfl) rfl
      (fun s' hs' _ => List.mem_singleton.mp hs')),
   ((get_component_get_step_lookup.1 [seedComponent1 "a"] "b").1
      (by intro c hc; cases List.mem_singleton.mp hc; decide))⟩

/-- C8: over the seeded store, listing components with a difficulty filter
returns exactly the stored components whose `difficulty_level` equals the
filter, and with no filter returns all 10 seeded components; both results
are sorted by `step_order` ascending, and a filter matching nothing yields
the empty sequence rather than an error.  Listing steps returns all 8 seeded
steps sorted by `step_number` ascending. -/
theorem list_components_steps_seeded :
    ∀ (gen : Fin 10 → String) (gen8 : Fin 8 → String),
      ((get_components (seedComponents gen) none).length = 10
       ∧ (∀ c, c ∈ get_components (seedComponents gen) none ↔ c ∈ seedComponents gen)
       ∧ (get_components (seedComponents gen) none).Sorted
           (fun a b => a.step_order ≤ b.step_order))
      ∧ (∀ d : DifficultyLevel,
          (∀ c, c ∈ get_components (seedComponents gen) (some d) ↔
            c ∈ seedComponents gen ∧ c.difficulty_level = d)
          ∧ (get_components (seedComponents gen) (some d)).Sorted
              (fun a b => a.step_order ≤ b.step_order))
      ∧ (∀ (store : List ArchitectureComponent) (d : DifficultyLevel),
          (∀ c ∈ store, c.difficulty_level ≠ d) →
          get_components store (some d) = [])
      ∧ ((get_steps (seedSteps gen8)).length = 8
         ∧ (∀ s, s ∈ get_steps (seedSteps gen8) ↔ s ∈ seedSteps gen8)
         ∧ (get_steps (seedSteps gen8)).Sorted
             (fun a b => a.step_number ≤ b.step_number)) := by
  intro gen gen8
  have hsort : (seedComponents gen).Sorted (fun a b => a.step_order ≤ b.step_order) := by
    simp [seedComponents, seedComponent1, seedComponent2, seedComponent3, seedComponent4,
      seedComponent5, seedComponent6, seedComponent7, seedComponent8, seedComponent9,
      seedComponent10, List.sorted_cons]
  have heq_none : get_components (seedComponents gen) none = seedComponents gen := by
    simp only [get_components, List.filter_true]
    rw [List.Sorted.insertionSort_eq hsort,
      List.take_of_length_le (by simp [seedComponents])]
  have heq_some : ∀ d : DifficultyLevel,
      get_components (seedComponents gen) (some d) =
        (seedComponents gen).filter (fun c => decide (c.difficulty_level = d)) := by
    intro d
    have hsortf := List.Pairwise.sublist
      (@List.filter_sublist _ (fun c => decide (c.difficulty_level = d))
        (seedComponents gen)) hsort
    simp only [get_components]
    rw [List.Sorted.insertionSort_eq hsortf,
      List.take_of_length_le (le_trans (List.length_filter_le _ _)
        (by simp [seedComponents]))]
  have hsort8 : (seedSteps gen8).Sorted (fun a b => a.step_number ≤ b.step_number) := by
    simp [seedSteps, seedStep1, seedStep2, seedStep3, seedStep4, seedStep5, seedStep6,
      seedStep7, seedStep8, List.sorted_cons]
  have heq_steps : get_steps (seedSteps gen8) = seedSteps gen8 := by
    simp only [get_steps]
    rw [List.Sorted.insertionSort_eq hsort8,
      List.take_of_length_le (by simp [seedSteps])]
  refine ⟨⟨?_, ?_, ?_⟩, ?_, ?_, ?_, ?_, ?_⟩
  · rw [heq_none]
    simp [seedComponents]
  · intro c
    rw [heq_none]
  · rw [heq_none]
    exact hsort
  · intro d
    refine ⟨?_, ?_⟩
    · intro c
      rw [heq_some d]
      simp [List.mem_filter]
    · rw [heq_some d]
      exact List.Pairwise.sublist (List.filter_sublist _) hsort
  · intro store d h
    have hnil : store.filter (fun c => decide (c.difficulty_level = d)) = [] :=
      List.filter_eq_nil_iff.mpr (fun a ha => by simpa using h a ha)
    simp only [get_components]
    rw [hnil]
    rfl
  · rw [heq_steps]
    simp [seedSteps]
  · intro s
    rw [heq_steps]
  · rw [heq_steps]
    exact hsort8

/-- Witness for C8: the demo seeding returns 10 components and 8 steps, and
filtering a one-component (intermediate) store by beginner yields the empty
list. -/
theorem list_components_steps_seeded_witness :
    (get_components (seedComponents demoIds) none).length = 10
    ∧ (get_steps (seedSteps demoStepIds)).length = 8
    ∧ get_components [seedComponent1 "a"] (some .beginner) = [] :=
  ⟨(list_components_steps_seeded demoIds demoStepIds).1.1,
   (list_components_steps_seeded demoIds demoStepIds).2.2.2.1,
   (list_components_steps_seeded demoIds demoStepIds).2.2.1 [seedComponent1 "a"]
     .beginner (by intro c hc; cases List.mem_singleton.mp hc; decide)⟩

/-- Helper: in a store whose ids are pairwise distinct, `find_one` by the id
of a stored component returns exactly that component. -/
theorem find_id_of_nodup :
    ∀ (l : List ArchitectureComponent),
      ((l.map (fun c => c.id)).Nodup) →
      ∀ (c : ArchitectureComponent), c ∈ l →
      l.find? (fun x => x.id == c.id) = some c := by
  intro l
  induction l with
  | nil =>
    intro _ c hc
    cases hc
  | cons a l ih =>
    intro hnd c hc
    have hnd' := hnd
    rw [List.map_cons, List.nodup_cons] at hnd'
    rcases List.mem_cons.mp hc with rfl | hmem
    · rw [List.find?_cons_of_pos]
      simp
    · have hne : ¬ ((a.id == c.id) = true) := by
        intro h
        have : a.id = c.id := by simpa using h
        exact hnd'.1 (this ▸ List.mem_map_of_mem (fun c => c.id) hmem)
      rw [@List.find?_cons_of_neg _ (fun x => x.id == c.id) a l hne]
      exact ih hnd'.2 c hmem

/-- C9: round trip through startup seeding — when the ten generated ids are
pairwise distinct (uuid uniqueness), every component inserted by seeding is
retrievable through `get_component` at its generated id, and the returned
record is exactly the seeded record (all fields equal to the seed values). -/
theorem seed_components_round_trip :
    ∀ (gen : Fin 10 → String), Function.Injective gen →
      ∀ c ∈ seedComponents gen, get_component (seedComponents gen) c.id = .ok c := by
  intro gen hinj c hc
  have hmap : (seedComponents gen).map (fun c => c.id) =
      List.map gen [0, 1, 2, 3, 4, 5, 6, 7, 8, 9] := by
    simp [seedComponents, seedComponent1, seedComponent2, seedComponent3, seedComponent4,
      seedComponent5, seedComponent6, seedComponent7, seedComponent8, seedComponent9,
      seedComponent10]
  have hnd : ((seedComponents gen).map (fun c => c.id)).Nodup := by
    rw [hmap]
    exact List.Nodup.map hinj (by decide)
  have hf := find_id_of_nodup (seedComponents gen) hnd c hc
  simp [get_component, resolveComponent, hf]

/-- Witness for C9: with ten concrete distinct ids, the first seeded
component (the Global Load Balancer) is retrieved intact by its id. -/
theorem seed_components_round_trip_witness :
    get_component (seedComponents demoIds) (seedComponent1 (demoIds 0)).id =
      .ok (seedComponent1 (demoIds 0)) :=
  seed_components_round_trip demoIds (by decide) (seedComponent1 (demoIds 0))
    (by simp [seedComponents])

/-- C10: both list operations execute their query with a hard `to_list(100)`
cap — for every store state they return at most 100 documents, and a store
holding 101 matching documents gets exactly 100 back (the 101st silently
omitted). -/
theorem list_result_cap_100 :
    (∀ (store : List ArchitectureComponent) (d : Option DifficultyLevel),
       (get_components store d).length ≤ 100)
    ∧ (∀ store : List StepExplanation, (get_steps store).length ≤ 100)
    ∧ (get_components (List.replicate 101 (seedComponent1 "x")) none).length = 100 := by
  refine ⟨?_, ?_, ?_⟩
  · intro store d
    simp only [get_components]
    exact List.length_take_le _ _
  · intro store
    simp only [get_steps]
    exact List.length_take_le _ _
  · simp only [get_components, List.filter_true]
    rw [List.length_take, List.length_insertionSort, List.length_replicate]
    decide
